import Mathlib

/-!
Verification development for the shiritori quiz session manager
(`shiritori_manager.js`): a per-location asynchronous game-turn
orchestrator.  The JavaScript source is shallowly embedded: each action
class's `do` method is modelled as a pure function from a global state to a
result/state pair, with an `Env` oracle deciding collaborator behaviour
(notification faults, preprocessing results, which completion source wins a
race).  The promise-driven driver `chainActions` is modelled with explicit
fuel and an event trace.
-/

namespace Shiritori

/-! ## Constants (top of shiritori_manager.js) -/

def INITIAL_DELAY_IN_MS : Nat := 5000
def REVEAL_INTERVAL_IN_MS : Nat := 8000
def MAX_SAVES_PER_USER : Nat := 5
def MINIMUM_ANSWER_LIMIT_IN_MS : Nat := 4000
def END_STATUS_ERROR : Nat := 1

/-! ## Data model -/

/-- Game mode flags consulted by the command surface
(`gameMode.onlyOwnerOrAdminCanStop`, `gameMode.isReviewMode`). -/
structure GameMode where
  isReviewMode : Bool
  onlyOwnerOrAdminCanStop : Bool
deriving DecidableEq

/-- One quiz card, with the timing configuration fields the actions read. -/
structure Card where
  cardId : Nat
  wasPreprocessed : Bool
  answerTimeLimitInMs : Nat
  numberOfReveals : Nat
  additionalAnswerWaitTimeInMs : Nat
  newQuestionDelayAfterAnsweredInMs : Nat
  newQuestionDelayAfterUnansweredInMs : Nat
deriving DecidableEq

/-- The mutable state of one session object (collaborator contract of §6 of
the spec).  `timers` counts the pending timer handles registered through
`session.addTimer`; `finalizedGameOver` records the argument of the last
`session.finalize(gameOver)` call; `acceptedAnswers` records the successful
`session.tryAcceptAnswer` calls; `currentCardAnswered` records
`markCurrentCardAnswered` / `markCurrentCardUnanswered`. -/
structure SessionState where
  locationId : Nat
  ownerId : Nat
  gameMode : GameMode
  deck : List Card
  currentCard : Option Card
  currentCardAnswered : Option Bool
  timers : Nat
  saveRequestedByUserId : Option Nat
  acceptedAnswers : List (Nat × String)
  finalizedGameOver : Option Bool
deriving DecidableEq

/-- The action variants.  Each JS action object holds a reference to its
session (`this.session_`), modelled as the session id carried by every
constructor.  `wait` also carries its constructor arguments
(`waitInterval_`, `nextAction_`), `showWrongAnswer` carries `skipped_`,
and `save` carries `savingUserId_`. -/
inductive Action where
  | start (sid : Nat)
  | wait (sid : Nat) (waitInterval : Nat) (next : Action)
  | askInitialQuestion (sid : Nat)
  | askQuestion (sid : Nat)
  | showAnswers (sid : Nat)
  | showWrongAnswer (sid : Nat) (skipped : Bool)
  | save (sid : Nat) (savingUserId : Nat)
  | endQuizForError (sid : Nat)
  | endQuizScoreLimitReached (sid : Nat)
  | endQuizNoQuestionsLeft (sid : Nat)
  | endQuizTooManyWrongAnswers (sid : Nat)
deriving DecidableEq

/-- Kind tags used in the driver's event trace. -/
inductive AKind where
  | startK
  | waitK
  | askInitialQuestionK
  | askQuestionK
  | showAnswersK
  | showWrongAnswerK
  | saveK
  | endQuizForErrorK
  | endQuizScoreLimitK
  | endQuizNoQuestionsK
  | endQuizTooManyWrongK
deriving DecidableEq

def Action.kind : Action → AKind
  | .start _ => .startK
  | .wait _ _ _ => .waitK
  | .askInitialQuestion _ => .askInitialQuestionK
  | .askQuestion _ => .askQuestionK
  | .showAnswers _ => .showAnswersK
  | .showWrongAnswer _ _ => .showWrongAnswerK
  | .save _ _ => .saveK
  | .endQuizForError _ => .endQuizForErrorK
  | .endQuizScoreLimitReached _ => .endQuizScoreLimitK
  | .endQuizNoQuestionsLeft _ => .endQuizNoQuestionsK
  | .endQuizTooManyWrongAnswers _ => .endQuizTooManyWrongK

/-- Which action classes define a `skip` method: only `AskQuestionAction`. -/
def Action.supportsSkip : Action → Bool
  | .askQuestion _ => true
  | _ => false

/-- Which action classes define a `stop` method: `ShowAnswersAction`,
`AskQuestionAction` and `WaitAction`. -/
def Action.supportsStop : Action → Bool
  | .showAnswers _ => true
  | .askQuestion _ => true
  | .wait _ _ _ => true
  | _ => false

/-- Which action classes define a `tryAcceptUserInput` method:
`ShowAnswersAction` and `AskQuestionAction`. -/
def Action.supportsInput : Action → Bool
  | .showAnswers _ => true
  | .askQuestion _ => true
  | _ => false

/-- A registered action object together with its mutable instance fields:
`readyForAnswers_` (set in `AskQuestionAction.do`), whether `fulfill_` has
been assigned, and the single-assignment resolution of its pending promise
(`some v` once fulfilled with `v`, where `v = none` models resolving with
`undefined` / a non-action value). -/
structure ActiveAction where
  action : Action
  readyForAnswers : Bool := false
  fulfillArmed : Bool := false
  resolution : Option (Option Action) := none
deriving DecidableEq

/-- A fresh action object as constructed by `new XAction(session)`. -/
def ActiveAction.fresh (a : Action) : ActiveAction :=
  { action := a }

/-- Process-wide state: the session object heap, and the two registry maps
`state.shiritoriManager.sessionForLocationId` and
`state.shiritoriManager.currentActionForLocationId`. -/
structure GState where
  sessionHeap : Nat → SessionState
  sessionForLocationId : Nat → Option Nat
  currentActionForLocationId : Nat → Option ActiveAction

/-- JavaScript fault values that matter to the embedding. -/
inductive JsErr where
  | referenceError
  | typeError
  | collabError
  | assertionFailed
deriving DecidableEq

/-- Outcome of a synchronous collaborator call that sits outside promise
protection: it may return normally, return a rejected promise, or throw
synchronously. -/
inductive CallOutcome where
  | ok
  | rejects
  | throwsSync
deriving DecidableEq

/-- Result of `card.preprocess`: a usable card, the explicit
`false` (not usable) sentinel, or a rejection. -/
inductive PreprocessRes where
  | usable
  | notUsable
  | faults
deriving DecidableEq

/-- Which completion source wins `AskQuestionAction`'s race: the
answer-deadline timer, an accepted answer, an external skip, an external
stop, or a fault inside the reveal timer chain. -/
inductive AskRace where
  | deadline
  | answered (userId : Nat) (userName : String) (input : String)
  | skipped
  | stopped
  | revealFaults
deriving DecidableEq

/-- Collaborator/environment oracle: decides every outcome that is outside
the core's control (notification success, preprocessing, scoring
predicates, race winners, persistence, saved-game counts). -/
structure Env where
  endQuizNotifyOk : Nat → Bool
  endQuizSyncThrows : Bool
  showQuestionOk : Nat → Bool
  showWrongAnswerCall : CallOutcome
  scoresFault : Bool
  checkForWin : Bool
  checkTooManyWrongAnswers : Bool
  preprocess : Card → PreprocessRes
  createQuestionFaults : Bool
  askRace : AskRace
  acceptAnswer : Nat → String → Bool
  saveFaults : Bool
  getSaveMementosCount : Nat → Nat

/-! ## State updaters -/

/-- Mutate one session object on the heap. -/
def modifySession (sid : Nat) (f : SessionState → SessionState) (st : GState) : GState :=
  { st with sessionHeap := fun s => if s = sid then f (st.sessionHeap s) else st.sessionHeap s }

def setDeck (sid : Nat) (deck : List Card) (st : GState) : GState :=
  modifySession sid (fun s => { s with deck := deck }) st

def setCurrentCard (sid : Nat) (card : Option Card) (st : GState) : GState :=
  modifySession sid (fun s => { s with currentCard := card }) st

/-- Model of `session.markCurrentCardAnswered` (`b = true`) and
`session.markCurrentCardUnanswered` (`b = false`). -/
def markCardAnswered (sid : Nat) (b : Bool) (st : GState) : GState :=
  modifySession sid (fun s => { s with currentCardAnswered := some b }) st

/-- Model of `session.addTimer(timer)`. -/
def addTimerTo (sid : Nat) (st : GState) : GState :=
  modifySession sid (fun s => { s with timers := s.timers + 1 }) st

/-- Model of `session.clearTimers()`. -/
def clearTimersOf (sid : Nat) (st : GState) : GState :=
  modifySession sid (fun s => { s with timers := 0 }) st

/-- Model of a successful `session.tryAcceptAnswer(userId, userName, input)`
recording the acceptance. -/
def recordAccept (sid : Nat) (userId : Nat) (input : String) (st : GState) : GState :=
  modifySession sid (fun s => { s with acceptedAnswers := (userId, input) :: s.acceptedAnswers }) st

/-- Model of `session.finalize(gameOver)`. -/
def setFinalized (sid : Nat) (gameOver : Bool) (st : GState) : GState :=
  modifySession sid (fun s => { s with finalizedGameOver := some gameOver }) st

/-- Model of `session.saveRequestedByUserId = savingUserId`. -/
def setPendingSave (sid : Nat) (userId : Nat) (st : GState) : GState :=
  modifySession sid (fun s => { s with saveRequestedByUserId := some userId }) st

def setCurrentAction (locationId : Nat) (aa : ActiveAction) (st : GState) : GState :=
  { st with currentActionForLocationId :=
      fun l => if l = locationId then some aa else st.currentActionForLocationId l }

def removeCurrentAction (locationId : Nat) (st : GState) : GState :=
  { st with currentActionForLocationId :=
      fun l => if l = locationId then none else st.currentActionForLocationId l }

def removeSession (locationId : Nat) (st : GState) : GState :=
  { st with sessionForLocationId :=
      fun l => if l = locationId then none else st.sessionForLocationId l }

/-- Single-assignment promise resolution: the first `fulfill` wins, later
calls are no-ops. -/
def promiseResolve (aa : ActiveAction) (v : Option Action) : ActiveAction :=
  if aa.resolution = none then { aa with resolution := some v } else aa

/-! ## Session registry and closing (lines 26-70, 137-144) -/

/-- Line 137-139: `isSessionInProgressAtLocation`. -/
def isSessionInProgressAtLocation (locationId : Nat) (st : GState) : Bool :=
  (st.sessionForLocationId locationId).isSome

/-- Lines 26-36: `closeSession(session, gameOver)` — deletes both registry
entries for the session's location and finalizes the session.  The
`!session` guard of line 27 is never taken from the modelled call sites,
which always pass a session object. -/
def closeSession (sid : Nat) (gameOver : Bool) (st : GState) : GState :=
  let locationId := (st.sessionHeap sid).locationId
  setFinalized sid gameOver (removeCurrentAction locationId (removeSession locationId st))

/-- Modelled from the spec: `Util.retryPromise(thunk, n)` is not under
`src/`; per §5 of the spec it bounds outbound notification attempts at `n`,
resolving on the first successful attempt and rejecting after exhausting
all `n`.  `retryRun ok n used` returns the total number of attempts made
and whether one succeeded, where `ok i` says whether attempt `i`
(0-indexed) succeeds. -/
def retryRun (ok : Nat → Bool) : Nat → Nat → Nat × Bool
  | 0, used => (used, false)
  | Nat.succ n, used => if ok used then (used + 1, true) else retryRun ok n (used + 1)

/-- Lines 38-70: `endQuiz(gameOver, session, notifier, notifyDelegate, ...)`.
If a current action is registered for the session's location, its `stop`
method (when present) is invoked and the entry is deleted.  Then the
end-of-quiz notification is attempted through `Util.retryPromise(_, 3)`;
on success or exhausted retries (rejection caught and logged, line 61-62)
the session is closed with `gameOver = true`.  A synchronous throw while
setting up the notification (the catch of line 66-69) is also logged and
also leads to `closeSession(session, true)`, with zero completed attempts.
Returns the final state and the number of notification attempts made. -/
def endQuizStopCurrent (sid : Nat) (st : GState) : GState :=
  let locationId := (st.sessionHeap sid).locationId
  match st.currentActionForLocationId locationId with
  | some aa =>
    let _stopped := if aa.action.supportsStop ∧ aa.fulfillArmed then promiseResolve aa none else aa
    removeCurrentAction locationId st
  | none => st

def endQuiz (env : Env) (sid : Nat) (st : GState) : GState × Nat :=
  let st1 := endQuizStopCurrent sid st
  if env.endQuizSyncThrows then
    (closeSession sid true st1, 0)
  else
    (closeSession sid true st1, (retryRun env.endQuizNotifyOk 3 0).1)

/-! ## Command surface (lines 88-144, 475-505) -/

/-- Lines 101-108: `skipCommand(locationId)` — helper for the
`AskQuestionAction.skip` body (lines 326-336): if `fulfill_` has been
assigned, mark the current card unanswered and fulfill with
`new ShowWrongAnswerAction(session, true)`. -/
def askQuestionSkip (aa : ActiveAction) (sid : Nat) (locationId : Nat) (st : GState) : GState :=
  if aa.fulfillArmed then
    let st1 := markCardAnswered sid false st
    setCurrentAction locationId (promiseResolve aa (some (Action.showWrongAnswer sid true))) st1
  else st

/-- Lines 101-108: `skipCommand(locationId)` — if the current action has a
`skip` method (only `AskQuestionAction` does), invoke it and return true;
else return false. -/
def skipCommand (locationId : Nat) (st : GState) : Bool × GState :=
  match st.currentActionForLocationId locationId with
  | none => (false, st)
  | some aa =>
    match aa.action with
    | Action.askQuestion sid => (true, askQuestionSkip aa sid locationId st)
    | _ => (false, st)

/-- Lines 282-292: `AskQuestionAction.tryAcceptUserInput` — returns false
with no effect before `readyForAnswers_` is set; otherwise delegates to
`session.tryAcceptAnswer` and on acceptance fulfills with
`new ShowAnswersAction(session)`.  If the answer is accepted while
`fulfill_` has not yet been assigned (the question is still being
rendered), `this.fulfill_(...)` throws a TypeError. -/
def askQuestionTryAcceptUserInput (env : Env) (aa : ActiveAction) (sid locationId userId : Nat)
    (input : String) (st : GState) : Except JsErr Bool × GState :=
  if aa.readyForAnswers = false then
    (Except.ok false, st)
  else
    let accepted := env.acceptAnswer userId input
    if accepted then
      let st1 := recordAccept sid userId input st
      if aa.fulfillArmed then
        (Except.ok true, setCurrentAction locationId (promiseResolve aa (some (Action.showAnswers sid))) st1)
      else
        (Except.error JsErr.typeError, st1)
    else
      (Except.ok false, st)

/-- Lines 249-251: `ShowAnswersAction.tryAcceptUserInput` — delegates
directly to `session.tryAcceptAnswer`. -/
def showAnswersTryAcceptUserInput (env : Env) (sid userId : Nat) (input : String)
    (st : GState) : Except JsErr Bool × GState :=
  let accepted := env.acceptAnswer userId input
  if accepted then (Except.ok true, recordAccept sid userId input st)
  else (Except.ok false, st)

/-- Lines 490-500: `ShiritoriManager.processUserInput` — lowercases the
input, and if the current action has a `tryAcceptUserInput` method
(`AskQuestionAction` or `ShowAnswersAction`), delegates to it; else
returns false. -/
def processUserInput (env : Env) (locationId userId : Nat) (input0 : String)
    (st : GState) : Except JsErr Bool × GState :=
  let input := input0.toLower
  match st.currentActionForLocationId locationId with
  | none => (Except.ok false, st)
  | some aa =>
    match aa.action with
    | Action.askQuestion sid => askQuestionTryAcceptUserInput env aa sid locationId userId input st
    | Action.showAnswers sid => showAnswersTryAcceptUserInput env sid userId input st
    | _ => (Except.ok false, st)

/-- Result summary of `saveQuizCommand`. -/
inductive SaveOutcome where
  | resolvedFalse
  | notifiedIsReview
  | notifiedNotOwner
  | noop
  | notifiedSaving
  | notifiedNoSpace
deriving DecidableEq

/-- Lines 123-134: the continuation run when
`saveManager.getSaveMementos(savingUserId)` resolves with `count`
mementos: compute `hasSpace`, no-op if `session.saveRequestedByUserId` is
already set, else either mark the pending-save owner and notify saving, or
notify no-space. -/
def saveQuizContinuation (sid userId count : Nat) (st : GState) : SaveOutcome × GState :=
  let hasSpace := count < MAX_SAVES_PER_USER
  if ((st.sessionHeap sid).saveRequestedByUserId).isSome then
    (SaveOutcome.noop, st)
  else if hasSpace then
    (SaveOutcome.notifiedSaving, setPendingSave sid userId st)
  else
    (SaveOutcome.notifiedNoSpace, st)

/-- Lines 110-135: `saveQuizCommand(locationId, savingUserId)`. -/
def saveQuizCommand (env : Env) (locationId savingUserId : Nat) (st : GState) : SaveOutcome × GState :=
  match st.sessionForLocationId locationId with
  | none => (SaveOutcome.resolvedFalse, st)
  | some sid =>
    if (st.sessionHeap sid).gameMode.isReviewMode then
      (SaveOutcome.notifiedIsReview, st)
    else if savingUserId ≠ (st.sessionHeap sid).ownerId then
      (SaveOutcome.notifiedNotOwner, st)
    else
      saveQuizContinuation sid savingUserId (env.getSaveMementosCount savingUserId) st

/-! ## Action execution (the `do` methods, compressed to their overall
completion: each is a function from global state to a result/state pair,
with the `Env` oracle resolving collaborator behaviour and races). -/

/-- Overall completion of an action's `do()` as observed by the driver:
it resolves with a next value (an action, or `none` for a non-action /
`undefined` value), its promise rejects, or it throws synchronously. -/
inductive DoRes where
  | next (a : Option Action)
  | rejected (e : JsErr)
  | threw (e : JsErr)
deriving DecidableEq

/-- Lines 389-399: `StartAction.do` — `notifyStarting` (a rejection is
caught and only logged, lines 392-393), then resolves with
`new WaitAction(session, INITIAL_DELAY_IN_MS, new AskInitialQuestionAction(session))`. -/
def startActionDo (sid : Nat) (st : GState) : DoRes × GState :=
  (DoRes.next (some (Action.wait sid INITIAL_DELAY_IN_MS (Action.askInitialQuestion sid))), st)

/-- Lines 401-423: `WaitAction.do` — schedules one timer (registered with
the session) and resolves with the pre-selected next action when it fires.
An external `stop` resolving it early is only reachable through `endQuiz`,
which is modelled at the command layer. -/
def waitActionDo (sid : Nat) (next : Action) (st : GState) : DoRes × GState :=
  (DoRes.next (some next), addTimerTo sid st)

/-- Lines 382-387: `AskInitialQuestionAction.do` — fetches
`wordData.getRandomWord()` and then falls off the end of the function
body: the returned promise resolves with `undefined`, not with an action. -/
def askInitialQuestionActionDo (_sid : Nat) (st : GState) : DoRes × GState :=
  (DoRes.next none, st)

/-- Lines 158-179: `EndQuizForErrorAction.do` — inside the `try`, line 164
reads the name `messageSender`, which is not defined anywhere in the file
(the fetched `clientDelegate` of line 163 is unused), so a ReferenceError
is thrown before `endQuiz` is ever called.  The catch of lines 171-177
logs, closes the session with `gameOver = true`, and re-raises the fault,
so the returned promise rejects. -/
def endQuizForErrorActionDo (sid : Nat) (st : GState) : DoRes × GState :=
  (DoRes.rejected JsErr.referenceError, closeSession sid true st)

/-- Lines 181-188: `EndQuizScoreLimitReachedAction.do` — delegates to
`endQuiz` with `notifyQuizEndedScoreLimitReached`. -/
def endQuizScoreLimitReachedActionDo (env : Env) (sid : Nat) (st : GState) : DoRes × GState :=
  (DoRes.next none, (endQuiz env sid st).1)

/-- Lines 190-196: `EndQuizNoQuestionsLeftAction.do` — delegates to
`endQuiz` with `notifyQuizEndedNoQuestionsLeft`. -/
def endQuizNoQuestionsLeftActionDo (env : Env) (sid : Nat) (st : GState) : DoRes × GState :=
  (DoRes.next none, (endQuiz env sid st).1)

/-- Lines 198-205: `EndQuizTooManyWrongAnswersAction.do` — delegates to
`endQuiz` with `notifyQuizEndedTooManyWrongAnswers`. -/
def endQuizTooManyWrongAnswersActionDo (env : Env) (sid : Nat) (st : GState) : DoRes × GState :=
  (DoRes.next none, (endQuiz env sid st).1)

/-- Lines 207-252: `ShowAnswersAction.do` — reads the current card (if it
is absent the promise executor throws on the card field access, so the
promise rejects with a TypeError and no timer is registered), schedules
the `additionalAnswerWaitTimeInMs` timer, and when it fires: marks the
current card answered, reads the scores (a collaborator fault here is
caught by the callback's try/catch and rejects the promise),
best-effort renders the scoreboard (failure only logged, lines 226-228),
then either ends on the win condition or schedules the next question. -/
def showAnswersActionDo (env : Env) (sid : Nat) (st : GState) : DoRes × GState :=
  match (st.sessionHeap sid).currentCard with
  | none => (DoRes.rejected JsErr.typeError, st)
  | some card =>
    let st1 := addTimerTo sid st
    let st2 := markCardAnswered sid true st1
    if env.scoresFault then
      (DoRes.rejected JsErr.collabError, st2)
    else if env.checkForWin then
      (DoRes.next (some (Action.endQuizScoreLimitReached sid)), st2)
    else
      (DoRes.next (some (Action.wait sid card.newQuestionDelayAfterAnsweredInMs (Action.askQuestion sid))), st2)

/-- Lines 254-274: `ShowWrongAnswerAction.do` — the
`session.getMessageSender().showWrongAnswer(...)` call sits outside
promise protection, so a synchronous throw there propagates out of `do`
itself; a rejection is caught and only logged (lines 263-265).  Then the
consecutive-miss check either ends the quiz or schedules the next
question (reading the current card's delay field; if the card is absent
the then-callback throws and the promise rejects). -/
def showWrongAnswerActionDo (env : Env) (sid : Nat) (st : GState) : DoRes × GState :=
  match env.showWrongAnswerCall with
  | CallOutcome.throwsSync => (DoRes.threw JsErr.collabError, st)
  | _ =>
    if env.checkTooManyWrongAnswers then
      (DoRes.next (some (Action.endQuizTooManyWrongAnswers sid)), st)
    else
      match (st.sessionHeap sid).currentCard with
      | none => (DoRes.rejected JsErr.typeError, st)
      | some card =>
        (DoRes.next (some (Action.wait sid card.newQuestionDelayAfterUnansweredInMs (Action.askQuestion sid))), st)

/-- Update the `readyForAnswers_` field of the registered current action
object for the session's location (`this.readyForAnswers_ = true`,
line 356: the object the driver registered is `this`). -/
def setRegisteredReady (sid : Nat) (st : GState) : GState :=
  let locationId := (st.sessionHeap sid).locationId
  match st.currentActionForLocationId locationId with
  | some aa => setCurrentAction locationId { aa with readyForAnswers := true } st
  | none => st

/-- Update the `fulfill_` assignment of the registered current action
object (line 364: `this.fulfill_ = fulfill`). -/
def setRegisteredArmed (sid : Nat) (st : GState) : GState :=
  let locationId := (st.sessionHeap sid).locationId
  match st.currentActionForLocationId locationId with
  | some aa => setCurrentAction locationId { aa with fulfillArmed := true } st
  | none => st

/-- Lines 338-379: the body of `AskQuestionAction.do`, recursing through
the session's deck (`session.getNextCard()` consumes a card; the
`card === false` not-usable sentinel retries via `this.do()`, line 352).
For a usable card: mark it preprocessed, set it current, open
`readyForAnswers_`, create the question (a rejection propagates), render
it with `Util.retryPromise(_, 3)` (failure caught and only logged,
lines 358-360), assign `fulfill_`, schedule the answer-deadline timer and
the reveal chain, and resolve by whichever completion source wins:
deadline (card marked unanswered, `ShowWrongAnswer(skipped = false)`),
accepted answer (`ShowAnswers`), external skip (card marked unanswered,
`ShowWrongAnswer(skipped = true)`), external stop (resolves with
`undefined`), or a fault in the reveal chain (rejects, lines 310-314). -/
def askQuestionLoop (env : Env) (sid : Nat) : List Card → GState → DoRes × GState
  | [], st => (DoRes.next (some (Action.endQuizNoQuestionsLeft sid)), setDeck sid [] st)
  | card :: rest, st =>
    let st1 := setDeck sid rest st
    let pre := if card.wasPreprocessed then PreprocessRes.usable else env.preprocess card
    match pre with
    | PreprocessRes.faults => (DoRes.rejected JsErr.collabError, st1)
    | PreprocessRes.notUsable => askQuestionLoop env sid rest st1
    | PreprocessRes.usable =>
      let card1 := { card with wasPreprocessed := true }
      let st2 := setCurrentCard sid (some card1) st1
      let st3 := setRegisteredReady sid st2
      if env.createQuestionFaults then
        (DoRes.rejected JsErr.collabError, st3)
      else
        let _render := retryRun env.showQuestionOk 3 0
        let st4 := setRegisteredArmed sid st3
        let st5 := addTimerTo sid st4
        let st6 := if card1.numberOfReveals ≠ 0 then addTimerTo sid st5 else st5
        match env.askRace with
        | AskRace.deadline =>
          (DoRes.next (some (Action.showWrongAnswer sid false)), markCardAnswered sid false st6)
        | AskRace.answered userId _userName input =>
          (DoRes.next (some (Action.showAnswers sid)), recordAccept sid userId input st6)
        | AskRace.skipped =>
          (DoRes.next (some (Action.showWrongAnswer sid true)), markCardAnswered sid false st6)
        | AskRace.stopped => (DoRes.next none, st6)
        | AskRace.revealFaults => (DoRes.rejected JsErr.collabError, st6)

/-- Lines 338-379: `AskQuestionAction.do`, entered on the session's
current deck. -/
def askQuestionActionDo (env : Env) (sid : Nat) (st : GState) : DoRes × GState :=
  askQuestionLoop env sid ((st.sessionHeap sid).deck) st

/-- Lines 425-445: `SaveAction.do` — closes the session without game-over,
persists the snapshot (`saveManager.save`); on any persistence fault the
catch of lines 440-443 resolves with `new EndQuizForErrorAction(session)`;
on success the save acknowledgement's failure is caught and only logged,
and the promise resolves with a non-action value. -/
def saveActionDo (env : Env) (sid : Nat) (st : GState) : DoRes × GState :=
  let st1 := closeSession sid false st
  if env.saveFaults then
    (DoRes.next (some (Action.endQuizForError sid)), st1)
  else
    (DoRes.next none, st1)

/-- Dispatch of `action.do()` over the action classes. -/
def doAction (env : Env) : Action → GState → DoRes × GState
  | Action.start sid, st => startActionDo sid st
  | Action.wait sid _ next, st => waitActionDo sid next st
  | Action.askInitialQuestion sid, st => askInitialQuestionActionDo sid st
  | Action.askQuestion sid, st => askQuestionActionDo env sid st
  | Action.showAnswers sid, st => showAnswersActionDo env sid st
  | Action.showWrongAnswer sid _, st => showWrongAnswerActionDo env sid st
  | Action.save sid _, st => saveActionDo env sid st
  | Action.endQuizForError sid, st => endQuizForErrorActionDo sid st
  | Action.endQuizScoreLimitReached sid, st => endQuizScoreLimitReachedActionDo env sid st
  | Action.endQuizNoQuestionsLeft sid, st => endQuizNoQuestionsLeftActionDo env sid st
  | Action.endQuizTooManyWrongAnswers sid, st => endQuizTooManyWrongAnswersActionDo env sid st

/-! ## The action driver (lines 447-471) and session start (lines 475-484) -/

/-- Result of a (fuel-bounded) run of `chainActions`: the value the
returned promise resolves with (`none` models `undefined`,
`some END_STATUS_ERROR` the failure outcome), or fuel exhaustion of the
model. -/
inductive ChainRes where
  | resolved (v : Option Nat)
  | outOfFuel
deriving DecidableEq

/-- Events recorded by the modelled driver, in order: an action was
registered as current and its `do()` begun; a `do()` resolved; the
session's timers were cleared; a `do()` faulted. -/
inductive Event where
  | started (k : AKind)
  | completed
  | cleared
  | faulted
deriving DecidableEq

/-- Lines 447-471: `chainActions(locationId, action)`.  With no action, a
non-action resolution value, or no registered session, it stops silently.
Otherwise it registers the action as current and executes it; on success
it clears the session's timers and recurses on the returned value; on a
rejection it logs and recurses into `new EndQuizForErrorAction(session)`,
mapping the recovery's resolution to `END_STATUS_ERROR`; on a synchronous
throw (catch of lines 464-470) it logs and ends the quiz directly through
`endQuiz(true, session, messageSender, messageSender.notifyQuizEndedError)`,
resolving with `END_STATUS_ERROR`. -/
def chainActions (env : Env) : Nat → Nat → Option Action → GState → ChainRes × GState × List Event
  | 0, _, _, st => (ChainRes.outOfFuel, st, [])
  | Nat.succ fuel, locationId, actionOpt, st =>
    match actionOpt with
    | none => (ChainRes.resolved none, st, [])
    | some action =>
      match st.sessionForLocationId locationId with
      | none => (ChainRes.resolved none, st, [])
      | some sid =>
        let st1 := setCurrentAction locationId (ActiveAction.fresh action) st
        match doAction env action st1 with
        | (DoRes.next result, st2) =>
          let st3 := clearTimersOf sid st2
          let (res, st4, tr) := chainActions env fuel locationId result st3
          (res, st4, Event.started action.kind :: Event.completed :: Event.cleared :: tr)
        | (DoRes.rejected _e, st2) =>
          let (res, st4, tr) := chainActions env fuel locationId (some (Action.endQuizForError sid)) st2
          (match res with
           | ChainRes.outOfFuel => ChainRes.outOfFuel
           | ChainRes.resolved _ => ChainRes.resolved (some END_STATUS_ERROR),
           st4, Event.started action.kind :: Event.faulted :: tr)
        | (DoRes.threw _e, st2) =>
          let (st3, _attempts) := endQuiz env sid st2
          (ChainRes.resolved (some END_STATUS_ERROR), st3, [Event.started action.kind, Event.faulted])

/-- Lines 475-477: `verifySessionNotInProgress` — defensive assertion. -/
def verifySessionNotInProgress (locationId : Nat) (st : GState) : Except JsErr Unit :=
  if isSessionInProgressAtLocation locationId st then Except.error JsErr.assertionFailed
  else Except.ok ()

/-- Lines 141-144: `setSessionForLocationId(session, locationId)` — asserts
that no session is registered for the location, then registers it. -/
def setSessionForLocationId (sid locationId : Nat) (st : GState) : Except JsErr GState :=
  if isSessionInProgressAtLocation locationId st then Except.error JsErr.assertionFailed
  else Except.ok { st with sessionForLocationId :=
    fun l => if l = locationId then some sid else st.sessionForLocationId l }

/-- Lines 480-484: `ShiritoriManager.startSession(session, locationId)` —
verifies the precondition, registers the session, and begins the chain
with `new StartAction(session)`.  A failed assertion throws before any
mutation, leaving the state unchanged. -/
def startSession (env : Env) (fuel sid locationId : Nat) (st : GState) :
    Except JsErr (ChainRes × List Event) × GState :=
  match verifySessionNotInProgress locationId st with
  | Except.error e => (Except.error e, st)
  | Except.ok _ =>
    match setSessionForLocationId sid locationId st with
    | Except.error e => (Except.error e, st)
    | Except.ok st1 =>
      let (res, st2, tr) := chainActions env fuel locationId (some (Action.start sid)) st1
      (Except.ok (res, tr), st2)

/-! ## Helper lemmas about the state updaters -/

lemma modifySession_sessionForLocationId (sid : Nat) (f : SessionState → SessionState) (st : GState) :
    (modifySession sid f st).sessionForLocationId = st.sessionForLocationId := rfl

lemma modifySession_currentActionForLocationId (sid : Nat) (f : SessionState → SessionState) (st : GState) :
    (modifySession sid f st).currentActionForLocationId = st.currentActionForLocationId := rfl

lemma modifySession_sessionHeap (sid : Nat) (f : SessionState → SessionState) (st : GState) (x : Nat) :
    (modifySession sid f st).sessionHeap x = if x = sid then f (st.sessionHeap x) else st.sessionHeap x := by
  simp [modifySession]

lemma setCurrentAction_sessionHeap (l : Nat) (aa : ActiveAction) (st : GState) :
    (setCurrentAction l aa st).sessionHeap = st.sessionHeap := rfl

lemma setCurrentAction_sessionForLocationId (l : Nat) (aa : ActiveAction) (st : GState) :
    (setCurrentAction l aa st).sessionForLocationId = st.sessionForLocationId := rfl

lemma setCurrentAction_self (l : Nat) (aa : ActiveAction) (st : GState) :
    (setCurrentAction l aa st).currentActionForLocationId l = some aa := by
  simp [setCurrentAction]

lemma removeCurrentAction_sessionHeap (l : Nat) (st : GState) :
    (removeCurrentAction l st).sessionHeap = st.sessionHeap := rfl

lemma removeCurrentAction_sessionForLocationId (l : Nat) (st : GState) :
    (removeCurrentAction l st).sessionForLocationId = st.sessionForLocationId := rfl

lemma removeCurrentAction_apply (l : Nat) (st : GState) (x : Nat) :
    (removeCurrentAction l st).currentActionForLocationId x =
      if x = l then none else st.currentActionForLocationId x := rfl

lemma removeSession_sessionHeap (l : Nat) (st : GState) :
    (removeSession l st).sessionHeap = st.sessionHeap := rfl

lemma removeSession_currentActionForLocationId (l : Nat) (st : GState) :
    (removeSession l st).currentActionForLocationId = st.currentActionForLocationId := rfl

lemma removeSession_apply (l : Nat) (st : GState) (x : Nat) :
    (removeSession l st).sessionForLocationId x =
      if x = l then none else st.sessionForLocationId x := rfl

lemma closeSession_sessionForLocationId (sid : Nat) (b : Bool) (st : GState) (x : Nat) :
    (closeSession sid b st).sessionForLocationId x =
      if x = (st.sessionHeap sid).locationId then none else st.sessionForLocationId x := by
  simp [closeSession, setFinalized, modifySession_sessionForLocationId,
    removeCurrentAction_sessionForLocationId, removeSession_apply]

lemma closeSession_currentActionForLocationId (sid : Nat) (b : Bool) (st : GState) (x : Nat) :
    (closeSession sid b st).currentActionForLocationId x =
      if x = (st.sessionHeap sid).locationId then none else st.currentActionForLocationId x := by
  simp [closeSession, setFinalized, modifySession_currentActionForLocationId,
    removeCurrentAction_apply, removeSession_currentActionForLocationId]

lemma closeSession_finalized (sid : Nat) (b : Bool) (st : GState) :
    ((closeSession sid b st).sessionHeap sid).finalizedGameOver = some b := by
  simp [closeSession, setFinalized, modifySession_sessionHeap]

lemma closeSession_heap_locationId (sid : Nat) (b : Bool) (st : GState) (x : Nat) :
    ((closeSession sid b st).sessionHeap x).locationId = (st.sessionHeap x).locationId := by
  simp only [closeSession, setFinalized, modifySession_sessionHeap,
    removeCurrentAction_sessionHeap, removeSession_sessionHeap]
  split <;> rfl

/-- The retry helper makes at most `used + n` total attempts. -/
lemma retryRun_le (ok : Nat → Bool) : ∀ n used, (retryRun ok n used).1 ≤ used + n
  | 0, used => by simp [retryRun]
  | Nat.succ n, used => by
    simp only [retryRun]
    split
    · omega
    · have := retryRun_le ok n (used + 1)
      omega

lemma endQuizStopCurrent_sessionHeap (sid : Nat) (st : GState) :
    (endQuizStopCurrent sid st).sessionHeap = st.sessionHeap := by
  simp only [endQuizStopCurrent]
  split <;> rfl

lemma endQuizStopCurrent_sessionForLocationId (sid : Nat) (st : GState) :
    (endQuizStopCurrent sid st).sessionForLocationId = st.sessionForLocationId := by
  simp only [endQuizStopCurrent]
  split <;> rfl

lemma endQuiz_fst (env : Env) (sid : Nat) (st : GState) :
    (endQuiz env sid st).1 = closeSession sid true (endQuizStopCurrent sid st) := by
  unfold endQuiz
  split <;> rfl

lemma endQuiz_attempts_le (env : Env) (sid : Nat) (st : GState) :
    (endQuiz env sid st).2 ≤ 3 := by
  unfold endQuiz
  split
  · simp
  · have := retryRun_le env.endQuizNotifyOk 3 0
    simpa using this

lemma endQuiz_closed_session (env : Env) (sid : Nat) (st : GState) :
    (endQuiz env sid st).1.sessionForLocationId ((st.sessionHeap sid).locationId) = none := by
  simp [endQuiz_fst, closeSession_sessionForLocationId, endQuizStopCurrent_sessionHeap]

lemma endQuiz_closed_action (env : Env) (sid : Nat) (st : GState) :
    (endQuiz env sid st).1.currentActionForLocationId ((st.sessionHeap sid).locationId) = none := by
  simp [endQuiz_fst, closeSession_currentActionForLocationId, endQuizStopCurrent_sessionHeap]

lemma endQuiz_finalized (env : Env) (sid : Nat) (st : GState) :
    ((endQuiz env sid st).1.sessionHeap sid).finalizedGameOver = some true := by
  simp [endQuiz_fst, closeSession_finalized]

lemma endQuiz_heap_locationId (env : Env) (sid : Nat) (st : GState) (x : Nat) :
    ((endQuiz env sid st).1.sessionHeap x).locationId = (st.sessionHeap x).locationId := by
  simp [endQuiz_fst, closeSession_heap_locationId, endQuizStopCurrent_sessionHeap]

/-! ## Preservation lemmas: no `do` method moves a session to another
location, and none deletes a session's registry entry without also
deleting the location's current-action entry. -/

lemma modifySession_locationId (sid : Nat) (f : SessionState → SessionState) (st : GState) (x : Nat)
    (hf : ∀ s, (f s).locationId = s.locationId) :
    ((modifySession sid f st).sessionHeap x).locationId = (st.sessionHeap x).locationId := by
  rw [modifySession_sessionHeap]
  split <;> simp [hf]

lemma setDeck_locId (sid : Nat) (d : List Card) (st : GState) (x : Nat) :
    ((setDeck sid d st).sessionHeap x).locationId = (st.sessionHeap x).locationId :=
  modifySession_locationId _ _ _ _ (fun _ => rfl)

lemma setCurrentCard_locId (sid : Nat) (c : Option Card) (st : GState) (x : Nat) :
    ((setCurrentCard sid c st).sessionHeap x).locationId = (st.sessionHeap x).locationId :=
  modifySession_locationId _ _ _ _ (fun _ => rfl)

lemma markCardAnswered_locId (sid : Nat) (b : Bool) (st : GState) (x : Nat) :
    ((markCardAnswered sid b st).sessionHeap x).locationId = (st.sessionHeap x).locationId :=
  modifySession_locationId _ _ _ _ (fun _ => rfl)

lemma addTimerTo_locId (sid : Nat) (st : GState) (x : Nat) :
    ((addTimerTo sid st).sessionHeap x).locationId = (st.sessionHeap x).locationId :=
  modifySession_locationId _ _ _ _ (fun _ => rfl)

lemma clearTimersOf_locId (sid : Nat) (st : GState) (x : Nat) :
    ((clearTimersOf sid st).sessionHeap x).locationId = (st.sessionHeap x).locationId :=
  modifySession_locationId _ _ _ _ (fun _ => rfl)

lemma recordAccept_locId (sid userId : Nat) (input : String) (st : GState) (x : Nat) :
    ((recordAccept sid userId input st).sessionHeap x).locationId = (st.sessionHeap x).locationId :=
  modifySession_locationId _ _ _ _ (fun _ => rfl)

lemma setRegisteredReady_sessionHeap (sid : Nat) (st : GState) :
    (setRegisteredReady sid st).sessionHeap = st.sessionHeap := by
  simp only [setRegisteredReady]
  split <;> rfl

lemma setRegisteredArmed_sessionHeap (sid : Nat) (st : GState) :
    (setRegisteredArmed sid st).sessionHeap = st.sessionHeap := by
  simp only [setRegisteredArmed]
  split <;> rfl

lemma setRegisteredReady_sessionForLocationId (sid : Nat) (st : GState) :
    (setRegisteredReady sid st).sessionForLocationId = st.sessionForLocationId := by
  simp only [setRegisteredReady]
  split <;> rfl

lemma setRegisteredArmed_sessionForLocationId (sid : Nat) (st : GState) :
    (setRegisteredArmed sid st).sessionForLocationId = st.sessionForLocationId := by
  simp only [setRegisteredArmed]
  split <;> rfl

lemma askQuestionLoop_locId (env : Env) (sid : Nat) :
    ∀ (deck : List Card) (st : GState) (x : Nat),
      ((askQuestionLoop env sid deck st).2.sessionHeap x).locationId = (st.sessionHeap x).locationId
  | [], st, x => by simp [askQuestionLoop, setDeck_locId]
  | card :: rest, st, x => by
    simp only [askQuestionLoop]
    split
    · simp [setDeck_locId]
    · rw [askQuestionLoop_locId env sid rest]
      simp [setDeck_locId]
    · split
      · simp [setRegisteredReady_sessionHeap, setCurrentCard_locId, setDeck_locId]
      · split <;>
          simp [markCardAnswered_locId, recordAccept_locId, addTimerTo_locId,
            setRegisteredArmed_sessionHeap, setRegisteredReady_sessionHeap,
            setCurrentCard_locId, setDeck_locId, apply_ite (fun s : GState => (s.sessionHeap x).locationId)]

lemma askQuestionLoop_sessionForLocationId (env : Env) (sid : Nat) :
    ∀ (deck : List Card) (st : GState),
      (askQuestionLoop env sid deck st).2.sessionForLocationId = st.sessionForLocationId
  | [], st => by simp [askQuestionLoop, setDeck, modifySession_sessionForLocationId]
  | card :: rest, st => by
    simp only [askQuestionLoop]
    split
    · simp [setDeck, modifySession_sessionForLocationId]
    · rw [askQuestionLoop_sessionForLocationId env sid rest]
      simp [setDeck, modifySession_sessionForLocationId]
    · split
      · simp [setRegisteredReady_sessionForLocationId, setCurrentCard, setDeck,
          modifySession_sessionForLocationId]
      · split <;>
          simp [markCardAnswered, recordAccept, addTimerTo, setDeck, setCurrentCard,
            setRegisteredArmed_sessionForLocationId, setRegisteredReady_sessionForLocationId,
            modifySession_sessionForLocationId,
            apply_ite (fun s : GState => s.sessionForLocationId)]

/-- No `do` method moves any session object to another location. -/
lemma doAction_locId (env : Env) (a : Action) (st : GState) (x : Nat) :
    ((doAction env a st).2.sessionHeap x).locationId = (st.sessionHeap x).locationId := by
  cases a with
  | start sid => rfl
  | wait sid i next => simp [doAction, waitActionDo, addTimerTo_locId]
  | askInitialQuestion sid => rfl
  | askQuestion sid => simp [doAction, askQuestionActionDo, askQuestionLoop_locId]
  | showAnswers sid =>
    simp only [doAction, showAnswersActionDo]
    split
    · rfl
    · split
      · simp [markCardAnswered_locId, addTimerTo_locId]
      · split <;> simp [markCardAnswered_locId, addTimerTo_locId]
  | showWrongAnswer sid sk =>
    simp only [doAction, showWrongAnswerActionDo]
    split
    · rfl
    · split
      · rfl
      · split
        · rfl
        · rfl
  | save sid u =>
    simp only [doAction, saveActionDo]
    split <;> simp [closeSession_heap_locationId]
  | endQuizForError sid => simp [doAction, endQuizForErrorActionDo, closeSession_heap_locationId]
  | endQuizScoreLimitReached sid =>
    simp [doAction, endQuizScoreLimitReachedActionDo, endQuiz_heap_locationId]
  | endQuizNoQuestionsLeft sid =>
    simp [doAction, endQuizNoQuestionsLeftActionDo, endQuiz_heap_locationId]
  | endQuizTooManyWrongAnswers sid =>
    simp [doAction, endQuizTooManyWrongAnswersActionDo, endQuiz_heap_locationId]

/-- If a `do` method deletes a location's session entry, it also deletes
that location's current-action entry (the only deletions go through
`closeSession`). -/
lemma doAction_close (env : Env) (a : Action) (st : GState) (loc0 sid0 : Nat)
    (hs : st.sessionForLocationId loc0 = some sid0)
    (hn : (doAction env a st).2.sessionForLocationId loc0 = none) :
    (doAction env a st).2.currentActionForLocationId loc0 = none := by
  cases a with
  | start sid => rw [show (doAction env (Action.start sid) st).2 = st from rfl] at hn; simp [hs] at hn
  | wait sid i next =>
    rw [show (doAction env (Action.wait sid i next) st).2 = addTimerTo sid st from rfl] at hn
    simp [addTimerTo, modifySession_sessionForLocationId, hs] at hn
  | askInitialQuestion sid =>
    rw [show (doAction env (Action.askInitialQuestion sid) st).2 = st from rfl] at hn
    simp [hs] at hn
  | askQuestion sid =>
    rw [show (doAction env (Action.askQuestion sid) st).2
        = (askQuestionLoop env sid ((st.sessionHeap sid).deck) st).2 from rfl] at hn
    rw [askQuestionLoop_sessionForLocationId] at hn
    simp [hs] at hn
  | showAnswers sid =>
    have hsess : (doAction env (Action.showAnswers sid) st).2.sessionForLocationId
        = st.sessionForLocationId := by
      simp only [doAction, showAnswersActionDo]
      split
      · rfl
      · split
        · simp [markCardAnswered, addTimerTo, modifySession_sessionForLocationId]
        · split <;> simp [markCardAnswered, addTimerTo, modifySession_sessionForLocationId]
    rw [hsess] at hn
    simp [hs] at hn
  | showWrongAnswer sid sk =>
    have hsess : (doAction env (Action.showWrongAnswer sid sk) st).2.sessionForLocationId
        = st.sessionForLocationId := by
      simp only [doAction, showWrongAnswerActionDo]
      split
      · rfl
      · split
        · rfl
        · split <;> rfl
    rw [hsess] at hn
    simp [hs] at hn
  | save sid u =>
    have hstate : (doAction env (Action.save sid u) st).2 = closeSession sid false st := by
      simp only [doAction, saveActionDo]
      split <;> rfl
    rw [hstate] at hn ⊢
    rw [closeSession_sessionForLocationId] at hn
    rw [closeSession_currentActionForLocationId]
    by_cases hc : loc0 = (st.sessionHeap sid).locationId
    · simp [hc]
    · simp [hc, hs] at hn
  | endQuizForError sid =>
    have hstate : (doAction env (Action.endQuizForError sid) st).2 = closeSession sid true st := rfl
    rw [hstate] at hn ⊢
    rw [closeSession_sessionForLocationId] at hn
    rw [closeSession_currentActionForLocationId]
    by_cases hc : loc0 = (st.sessionHeap sid).locationId
    · simp [hc]
    · simp [hc, hs] at hn
  | endQuizScoreLimitReached sid =>
    have hstate : (doAction env (Action.endQuizScoreLimitReached sid) st).2
        = closeSession sid true (endQuizStopCurrent sid st) := endQuiz_fst env sid st
    rw [hstate] at hn ⊢
    rw [closeSession_sessionForLocationId, endQuizStopCurrent_sessionHeap,
      endQuizStopCurrent_sessionForLocationId] at hn
    rw [closeSession_currentActionForLocationId, endQuizStopCurrent_sessionHeap]
    by_cases hc : loc0 = (st.sessionHeap sid).locationId
    · simp [hc]
    · simp [hc, hs] at hn
  | endQuizNoQuestionsLeft sid =>
    have hstate : (doAction env (Action.endQuizNoQuestionsLeft sid) st).2
        = closeSession sid true (endQuizStopCurrent sid st) := endQuiz_fst env sid st
    rw [hstate] at hn ⊢
    rw [closeSession_sessionForLocationId, endQuizStopCurrent_sessionHeap,
      endQuizStopCurrent_sessionForLocationId] at hn
    rw [closeSession_currentActionForLocationId, endQuizStopCurrent_sessionHeap]
    by_cases hc : loc0 = (st.sessionHeap sid).locationId
    · simp [hc]
    · simp [hc, hs] at hn
  | endQuizTooManyWrongAnswers sid =>
    have hstate : (doAction env (Action.endQuizTooManyWrongAnswers sid) st).2
        = closeSession sid true (endQuizStopCurrent sid st) := endQuiz_fst env sid st
    rw [hstate] at hn ⊢
    rw [closeSession_sessionForLocationId, endQuizStopCurrent_sessionHeap,
      endQuizStopCurrent_sessionForLocationId] at hn
    rw [closeSession_currentActionForLocationId, endQuizStopCurrent_sessionHeap]
    by_cases hc : loc0 = (st.sessionHeap sid).locationId
    · simp [hc]
    · simp [hc, hs] at hn

/-! ## Concrete fixtures for witnesses and counterexamples -/

def sampleCard : Card :=
  { cardId := 1, wasPreprocessed := false, answerTimeLimitInMs := 30000,
    numberOfReveals := 2, additionalAnswerWaitTimeInMs := 3000,
    newQuestionDelayAfterAnsweredInMs := 500, newQuestionDelayAfterUnansweredInMs := 500 }

def sampleSession : SessionState :=
  { locationId := 0, ownerId := 7,
    gameMode := { isReviewMode := false, onlyOwnerOrAdminCanStop := false },
    deck := [sampleCard], currentCard := some sampleCard, currentCardAnswered := none,
    timers := 0, saveRequestedByUserId := none, acceptedAnswers := [],
    finalizedGameOver := none }

/-- Environment in which every collaborator behaves. -/
def happyEnv : Env :=
  { endQuizNotifyOk := fun _ => true, endQuizSyncThrows := false,
    showQuestionOk := fun _ => true, showWrongAnswerCall := CallOutcome.ok,
    scoresFault := false, checkForWin := false, checkTooManyWrongAnswers := false,
    preprocess := fun _ => PreprocessRes.usable, createQuestionFaults := false,
    askRace := AskRace.deadline, acceptAnswer := fun _ _ => false,
    saveFaults := false, getSaveMementosCount := fun _ => 0 }

/-- No session registered anywhere; session object 0 lives on the heap. -/
def freshState : GState :=
  { sessionHeap := fun _ => sampleSession,
    sessionForLocationId := fun _ => none,
    currentActionForLocationId := fun _ => none }

/-- Session 0 registered at location 0. -/
def runningState : GState :=
  { freshState with sessionForLocationId := fun l => if l = 0 then some 0 else none }

/-! ## Claim theorems -/

/-- Claim C3: the spec's happy path says executing AskInitialQuestion
yields an AskQuestion action, so the chain proceeds
Start, Wait(initial delay), AskInitialQuestion, AskQuestion.  The code
disagrees: `AskInitialQuestionAction.do` (lines 382-387) fetches a random
word and then falls off the end of the function body, so its promise
resolves with no next action at all, for every environment and state.
This evaluates the code at the failing input (code_bug: the spec itself
flags this spot as incomplete in the source). -/
theorem claim_C3_ask_initial_question_produces_no_next_action (env : Env) (sid : Nat) (st : GState) :
    doAction env (Action.askInitialQuestion sid) st = (DoRes.next none, st) := rfl

/-- Claim C1: the claim says every started chain reaches exactly one
terminal End-Quiz transition, after which the location has neither a
registered session nor a current action.  Evaluating the code on a started
chain at a fresh location with every collaborator behaving: the chain runs
Start, Wait, AskInitialQuestion and then halts (resolving with
`undefined`) because AskInitialQuestion produces no next action — zero
End-Quiz transitions occur (the explicit trace shows every event), the
session is still registered, a current action is still registered, and the
session was never finalized (code_bug). -/
theorem claim_C1_started_chain_halts_without_end_quiz :
    (startSession happyEnv 10 0 0 freshState).1 =
      Except.ok (ChainRes.resolved none,
        [Event.started AKind.startK, Event.completed, Event.cleared,
         Event.started AKind.waitK, Event.completed, Event.cleared,
         Event.started AKind.askInitialQuestionK, Event.completed, Event.cleared])
    ∧ ((startSession happyEnv 10 0 0 freshState).1.map (fun p => p.2.countP
        (fun e => decide (e = Event.started AKind.endQuizForErrorK)
          || decide (e = Event.started AKind.endQuizScoreLimitK)
          || decide (e = Event.started AKind.endQuizNoQuestionsK)
          || decide (e = Event.started AKind.endQuizTooManyWrongK)))) = Except.ok 0
    ∧ (startSession happyEnv 10 0 0 freshState).2.sessionForLocationId 0 = some 0
    ∧ ((startSession happyEnv 10 0 0 freshState).2.currentActionForLocationId 0).isSome = true
    ∧ ((startSession happyEnv 10 0 0 freshState).2.sessionHeap 0).finalizedGameOver = none := by
  refine ⟨by rfl, by rfl, by rfl, by rfl, by rfl⟩

/-- Claim C5 (amended): `saveQuizCommand` rejects with no state mutation
when there is no session, when the session is a review session, or when
the requester is not the owner; otherwise it fetches the requester's save
mementos and runs the continuation, in which the pending-save check
precedes the capacity check: if a save is already pending for the session
it is a no-op even when the requester is at the 5-save cap; otherwise a
requester at the cap gets the no-space notification; otherwise the
pending-save owner is set and saving is acknowledged — and a second
issuance whose memento fetch has also resolved then no-ops, so the
pending-save owner is set exactly once. -/
theorem claim_C5_save_quiz_command (env : Env) (st : GState) (locationId userId sid : Nat) :
    (st.sessionForLocationId locationId = none →
      saveQuizCommand env locationId userId st = (SaveOutcome.resolvedFalse, st))
    ∧ (st.sessionForLocationId locationId = some sid →
       (st.sessionHeap sid).gameMode.isReviewMode = true →
      saveQuizCommand env locationId userId st = (SaveOutcome.notifiedIsReview, st))
    ∧ (st.sessionForLocationId locationId = some sid →
       (st.sessionHeap sid).gameMode.isReviewMode = false →
       userId ≠ (st.sessionHeap sid).ownerId →
      saveQuizCommand env locationId userId st = (SaveOutcome.notifiedNotOwner, st))
    ∧ (st.sessionForLocationId locationId = some sid →
       (st.sessionHeap sid).gameMode.isReviewMode = false →
       userId = (st.sessionHeap sid).ownerId →
       ((st.sessionHeap sid).saveRequestedByUserId).isSome = true →
      saveQuizCommand env locationId userId st = (SaveOutcome.noop, st))
    ∧ (st.sessionForLocationId locationId = some sid →
       (st.sessionHeap sid).gameMode.isReviewMode = false →
       userId = (st.sessionHeap sid).ownerId →
       (st.sessionHeap sid).saveRequestedByUserId = none →
       MAX_SAVES_PER_USER ≤ env.getSaveMementosCount userId →
      saveQuizCommand env locationId userId st = (SaveOutcome.notifiedNoSpace, st))
    ∧ (st.sessionForLocationId locationId = some sid →
       (st.sessionHeap sid).gameMode.isReviewMode = false →
       userId = (st.sessionHeap sid).ownerId →
       (st.sessionHeap sid).saveRequestedByUserId = none →
       env.getSaveMementosCount userId < MAX_SAVES_PER_USER →
      saveQuizCommand env locationId userId st = (SaveOutcome.notifiedSaving, setPendingSave sid userId st)
      ∧ ((setPendingSave sid userId st).sessionHeap sid).saveRequestedByUserId = some userId
      ∧ saveQuizContinuation sid userId (env.getSaveMementosCount userId) (setPendingSave sid userId st)
          = (SaveOutcome.noop, setPendingSave sid userId st)) := by
  refine ⟨fun h => by simp [saveQuizCommand, h], ?_, ?_, ?_, ?_, ?_⟩
  · intro h hrev
    simp [saveQuizCommand, h, hrev]
  · intro h hrev hown
    simp [saveQuizCommand, h, hrev, hown]
  · intro h hrev hown hpend
    subst hown
    simp [saveQuizCommand, saveQuizContinuation, h, hrev, hpend]
  · intro h hrev hown hpend hcap
    subst hown
    simp [saveQuizCommand, saveQuizContinuation, h, hrev, hpend, Nat.not_lt.mpr hcap]
  · intro h hrev hown hpend hspace
    subst hown
    refine ⟨by simp [saveQuizCommand, saveQuizContinuation, h, hrev, hpend, hspace], ?_, ?_⟩
    · simp [setPendingSave, modifySession]
    · simp [saveQuizContinuation, setPendingSave, modifySession]

/-- Environment in which the requester already has 5 saved games. -/
def atCapEnv : Env := { happyEnv with getSaveMementosCount := fun _ => 5 }

/-- State with a session at location 0, owned by user 7, with a save
already pending for the session. -/
def pendingSaveState : GState :=
  { runningState with sessionHeap := fun _ =>
      { sampleSession with saveRequestedByUserId := some 7 } }

/-- Claim C5 counterexample: the claim as stated checks the 5-save cap
before the pending-save check ("notifies no-space if the requester already
has 5 saved games, is a no-op if a save is already pending").  On an owner
request with a pending save and exactly 5 existing mementos, the code
no-ops and never emits the no-space notification, because the code checks
the pending save first (lines 125-127 precede lines 128-133). -/
theorem claim_C5_counterexample :
    atCapEnv.getSaveMementosCount 7 = MAX_SAVES_PER_USER
    ∧ (pendingSaveState.sessionHeap 0).saveRequestedByUserId = some 7
    ∧ pendingSaveState.sessionForLocationId 0 = some 0
    ∧ (pendingSaveState.sessionHeap 0).ownerId = 7
    ∧ (pendingSaveState.sessionHeap 0).gameMode.isReviewMode = false
    ∧ (saveQuizCommand atCapEnv 0 7 pendingSaveState).1 = SaveOutcome.noop
    ∧ ¬ (saveQuizCommand atCapEnv 0 7 pendingSaveState).1 = SaveOutcome.notifiedNoSpace := by
  refine ⟨rfl, rfl, rfl, rfl, rfl, rfl, by decide⟩

/-- Claim C5 witness: the rejection, no-space, first-save and
double-issuance branches of the amended claim, instantiated on concrete
states. -/
theorem claim_C5_witness :
    (saveQuizCommand happyEnv 3 7 freshState).1 = SaveOutcome.resolvedFalse
    ∧ (saveQuizCommand happyEnv 0 8 runningState).1 = SaveOutcome.notifiedNotOwner
    ∧ (saveQuizCommand atCapEnv 0 7 runningState).1 = SaveOutcome.notifiedNoSpace
    ∧ (saveQuizCommand happyEnv 0 7 runningState).1 = SaveOutcome.notifiedSaving
    ∧ (((saveQuizCommand happyEnv 0 7 runningState).2.sessionHeap 0).saveRequestedByUserId = some 7)
    ∧ (saveQuizContinuation 0 7 (happyEnv.getSaveMementosCount 7)
        (saveQuizCommand happyEnv 0 7 runningState).2).1 = SaveOutcome.noop := by
  have h1 := (claim_C5_save_quiz_command happyEnv freshState 3 7 0).1 rfl
  have h2 := (claim_C5_save_quiz_command happyEnv runningState 0 8 0).2.2.1 rfl rfl (by decide)
  have h3 := (claim_C5_save_quiz_command atCapEnv runningState 0 7 0).2.2.2.2.1 rfl rfl rfl rfl (by decide)
  have h4 := (claim_C5_save_quiz_command happyEnv runningState 0 7 0).2.2.2.2.2 rfl rfl rfl rfl (by decide)
  refine ⟨by rw [h1], by rw [h2], by rw [h3], by rw [h4.1], ?_, ?_⟩
  · rw [h4.1]
    exact h4.2.1
  · rw [h4.1]
    rw [h4.2.2]

/-- Claim C9: `skip(locationId)` returns true exactly when the current
action at the location has a `skip` method (only AskQuestion does), and
skipping an AskQuestion action whose completion promise is armed and
unresolved always resolves it with `ShowWrongAnswer(skipped = true)` and
marks the current card unanswered — for an arbitrary state, hence
regardless of the remaining answer time or pending timers. -/
theorem claim_C9_skip_command (st : GState) (locationId sid : Nat) (aa : ActiveAction) :
    ((skipCommand locationId st).1 = true ↔
      ∃ aa0, st.currentActionForLocationId locationId = some aa0 ∧ aa0.action.supportsSkip = true)
    ∧ (st.currentActionForLocationId locationId = some aa →
       aa.action = Action.askQuestion sid →
       aa.fulfillArmed = true →
       aa.resolution = none →
       (skipCommand locationId st).1 = true
       ∧ (skipCommand locationId st).2.currentActionForLocationId locationId =
           some { aa with resolution := some (some (Action.showWrongAnswer sid true)) }
       ∧ ((skipCommand locationId st).2.sessionHeap sid).currentCardAnswered = some false) := by
  constructor
  · cases hcur : st.currentActionForLocationId locationId with
    | none => simp [skipCommand, hcur]
    | some aa0 =>
      cases hact : aa0.action <;>
        simp [skipCommand, hcur, hact, Action.supportsSkip]
  · intro hcur hact harmed hres
    have hcmd : skipCommand locationId st = (true, askQuestionSkip aa sid locationId st) := by
      simp [skipCommand, hcur, hact]
    refine ⟨by simp [hcmd], ?_, ?_⟩
    · simp [hcmd, askQuestionSkip, harmed, promiseResolve, hres, setCurrentAction,
        markCardAnswered, modifySession]
    · simp [hcmd, askQuestionSkip, harmed, setCurrentAction, markCardAnswered, modifySession]

/-- An armed, unresolved AskQuestion action object for session 0. -/
def armedAsk : ActiveAction :=
  { action := Action.askQuestion 0, readyForAnswers := true,
    fulfillArmed := true, resolution := none }

/-- State whose current action at location 0 is an armed, unresolved
AskQuestion action for session 0. -/
def armedAskState : GState :=
  { runningState with currentActionForLocationId := fun l =>
      if l = 0 then some armedAsk else none }

/-- Claim C9 witness: skipping the armed AskQuestion action at location 0
reports true, resolves it with ShowWrongAnswer(skipped = true) and marks
the card unanswered; at a location with no current action skip reports
false. -/
theorem claim_C9_witness :
    (skipCommand 0 armedAskState).1 = true
    ∧ (skipCommand 0 armedAskState).2.currentActionForLocationId 0 =
        some { armedAsk with resolution := some (some (Action.showWrongAnswer 0 true)) }
    ∧ ((skipCommand 0 armedAskState).2.sessionHeap 0).currentCardAnswered = some false
    ∧ (skipCommand 5 armedAskState).1 = false := by
  have h := (claim_C9_skip_command armedAskState 0 0 armedAsk).2 rfl rfl rfl rfl
  refine ⟨h.1, h.2.1, h.2.2, ?_⟩
  have hiff := (claim_C9_skip_command armedAskState 5 0 armedAsk).1
  rw [Bool.eq_false_iff]
  intro htrue
  obtain ⟨aa0, haa0, _⟩ := hiff.mp htrue
  simp [armedAskState] at haa0

/-- Claim C10: an AskQuestion action supports the input-acceptance
capability, yet before `readyForAnswers_` is set, `processUserInput`
returns false with no effect at all on the state — no answer is recorded
and no completion is fulfilled. -/
theorem claim_C10_input_before_ready (env : Env) (st : GState)
    (locationId userId sid : Nat) (input : String) (aa : ActiveAction)
    (hcur : st.currentActionForLocationId locationId = some aa)
    (hact : aa.action = Action.askQuestion sid)
    (hready : aa.readyForAnswers = false) :
    processUserInput env locationId userId input st = (Except.ok false, st)
    ∧ aa.action.supportsInput = true := by
  constructor
  · simp [processUserInput, hcur, hact, askQuestionTryAcceptUserInput, hready]
  · simp [hact, Action.supportsInput]

/-- State whose current action at location 0 is an AskQuestion action that
is not yet ready for answers. -/
def notReadyAskState : GState :=
  { runningState with currentActionForLocationId := fun l =>
      if l = 0 then some { action := Action.askQuestion 0 } else none }

/-- Claim C10 witness: with an accepting answer oracle, input arriving
before the action is ready for answers is still rejected and the state is
untouched. -/
theorem claim_C10_witness :
    processUserInput { happyEnv with acceptAnswer := fun _ _ => true } 0 7 "TSUKUE"
        notReadyAskState = (Except.ok false, notReadyAskState)
    ∧ (Action.askQuestion 0).supportsInput = true := by
  have h := claim_C10_input_before_ready { happyEnv with acceptAnswer := fun _ _ => true }
    notReadyAskState 0 7 0 "TSUKUE" { action := Action.askQuestion 0 } rfl rfl rfl
  exact ⟨h.1, h.2⟩

/-- After a rejected `do`, the driver's recovery run: it registers a fresh
`EndQuizForErrorAction`, whose `do` closes the session and rejects; the
second-level recovery then finds no session and resolves, which the first
level maps to `END_STATUS_ERROR`. -/
lemma chainActions_eqfe_run (env : Env) (f locationId sid sid2 : Nat) (st : GState)
    (hsess : st.sessionForLocationId locationId = some sid2)
    (hloc : (st.sessionHeap sid).locationId = locationId) :
    chainActions env (f + 2) locationId (some (Action.endQuizForError sid)) st
      = (ChainRes.resolved (some END_STATUS_ERROR),
         closeSession sid true
           (setCurrentAction locationId (ActiveAction.fresh (Action.endQuizForError sid)) st),
         [Event.started AKind.endQuizForErrorK, Event.faulted]) := by
  have h2 : f + 2 = Nat.succ (f + 1) := rfl
  have hclosed : (closeSession sid true
      (setCurrentAction locationId (ActiveAction.fresh (Action.endQuizForError sid)) st)).sessionForLocationId
        locationId = none := by
    rw [closeSession_sessionForLocationId, setCurrentAction_sessionHeap, hloc]
    simp
  rw [h2]
  simp only [chainActions, hsess, doAction, endQuizForErrorActionDo, hclosed, Action.kind]

/-- Claim C7: the claim says every End-Quiz variant attempts its
notification with at most 3 retried attempts and in every case
force-closes the session (finalize with game-over = true) and clears both
registry entries.  For `endQuiz` (used by the score-limit, no-questions
and too-many-wrong variants, as the equations here show) all of this
holds.  The error variant, however, never reaches `endQuiz`: evaluating
`EndQuizForErrorAction.do` shows it rejects with a ReferenceError — the
undefined name `messageSender` on line 164 — after zero notification
attempts, though it still force-closes the session with game-over = true
and clears both registry entries via its catch block (code_bug for the
notification-attempt half of the claim). -/
theorem claim_C7_end_quiz_variants (env : Env) (sid : Nat) (st : GState) :
    (endQuiz env sid st).2 ≤ 3
    ∧ (endQuiz env sid st).1.sessionForLocationId ((st.sessionHeap sid).locationId) = none
    ∧ (endQuiz env sid st).1.currentActionForLocationId ((st.sessionHeap sid).locationId) = none
    ∧ ((endQuiz env sid st).1.sessionHeap sid).finalizedGameOver = some true
    ∧ doAction env (Action.endQuizScoreLimitReached sid) st = (DoRes.next none, (endQuiz env sid st).1)
    ∧ doAction env (Action.endQuizNoQuestionsLeft sid) st = (DoRes.next none, (endQuiz env sid st).1)
    ∧ doAction env (Action.endQuizTooManyWrongAnswers sid) st = (DoRes.next none, (endQuiz env sid st).1)
    ∧ doAction env (Action.endQuizForError sid) st
        = (DoRes.rejected JsErr.referenceError, closeSession sid true st)
    ∧ (closeSession sid true st).sessionForLocationId ((st.sessionHeap sid).locationId) = none
    ∧ (closeSession sid true st).currentActionForLocationId ((st.sessionHeap sid).locationId) = none
    ∧ ((closeSession sid true st).sessionHeap sid).finalizedGameOver = some true :=
  ⟨endQuiz_attempts_le env sid st, endQuiz_closed_session env sid st,
   endQuiz_closed_action env sid st, endQuiz_finalized env sid st,
   rfl, rfl, rfl, rfl,
   by rw [closeSession_sessionForLocationId]; simp,
   by rw [closeSession_currentActionForLocationId]; simp,
   closeSession_finalized sid true st⟩

/-- Claim C4: when `EndQuizForErrorAction`'s own end-of-quiz attempt
faults (which in the code happens on every execution: the undefined name
`messageSender` on line 164 throws before any notification is sent), the
session is nonetheless force-closed — finalized with game-over = true,
both registry entries removed — and the fault is re-raised to the driver,
whose recovery resolves the chain with `END_STATUS_ERROR`. -/
theorem claim_C4_end_quiz_for_error_recovery (env : Env) (fuel locationId sid : Nat) (st : GState)
    (hsess : st.sessionForLocationId locationId = some sid)
    (hloc : (st.sessionHeap sid).locationId = locationId)
    (hfuel : 2 ≤ fuel) :
    doAction env (Action.endQuizForError sid) st
        = (DoRes.rejected JsErr.referenceError, closeSession sid true st)
    ∧ (closeSession sid true st).sessionForLocationId locationId = none
    ∧ (closeSession sid true st).currentActionForLocationId locationId = none
    ∧ ((closeSession sid true st).sessionHeap sid).finalizedGameOver = some true
    ∧ (chainActions env fuel locationId (some (Action.endQuizForError sid)) st).1
        = ChainRes.resolved (some END_STATUS_ERROR) := by
  obtain ⟨f, rfl⟩ : ∃ f, fuel = f + 2 := ⟨fuel - 2, by omega⟩
  refine ⟨rfl, ?_, ?_, closeSession_finalized sid true st, ?_⟩
  · rw [closeSession_sessionForLocationId, hloc]
    simp
  · rw [closeSession_currentActionForLocationId, hloc]
    simp
  · rw [chainActions_eqfe_run env f locationId sid sid st hsess hloc]

/-- Claim C4 witness: the recovery chain on the concrete running state. -/
theorem claim_C4_witness :
    doAction happyEnv (Action.endQuizForError 0) runningState
        = (DoRes.rejected JsErr.referenceError, closeSession 0 true runningState)
    ∧ (closeSession 0 true runningState).sessionForLocationId 0 = none
    ∧ (closeSession 0 true runningState).currentActionForLocationId 0 = none
    ∧ ((closeSession 0 true runningState).sessionHeap 0).finalizedGameOver = some true
    ∧ (chainActions happyEnv 2 0 (some (Action.endQuizForError 0)) runningState).1
        = ChainRes.resolved (some END_STATUS_ERROR) :=
  claim_C4_end_quiz_for_error_recovery happyEnv 2 0 0 runningState rfl rfl (by decide)

/-- With at least one unit of fuel and a registered session, the driver's
trace begins with the started action's kind. -/
lemma chainActions_head (env : Env) (f locationId sid : Nat) (a : Action) (st : GState)
    (hsess : st.sessionForLocationId locationId = some sid) :
    (chainActions env (f + 1) locationId (some a) st).2.2.head? = some (Event.started a.kind) := by
  have h1 : f + 1 = Nat.succ f := rfl
  rw [h1]
  simp only [chainActions, hsess]
  rcases hdo : doAction env a (setCurrentAction locationId (ActiveAction.fresh a) st) with ⟨res, st2⟩
  cases res <;> simp

/-- Claim C6: starting a session at a location that already has one fails
the defensive assertion with the state unchanged (no second entry is
created); when the location is free, `setSessionForLocationId` registers
the session, and the chain begins with a Start action (the trace's first
event is the start of a Start-kind action). -/
theorem claim_C6_start_session_precondition (env : Env) (fuel sid locationId : Nat) (st : GState) :
    ((st.sessionForLocationId locationId).isSome = true →
      startSession env fuel sid locationId st = (Except.error JsErr.assertionFailed, st))
    ∧ (st.sessionForLocationId locationId = none →
       ∃ st1, setSessionForLocationId sid locationId st = Except.ok st1
         ∧ st1.sessionForLocationId locationId = some sid)
    ∧ (st.sessionForLocationId locationId = none → 1 ≤ fuel →
       (startSession env fuel sid locationId st).1.map (fun p => p.2.head?)
         = Except.ok (some (Event.started AKind.startK))) := by
  refine ⟨?_, ?_, ?_⟩
  · intro h
    simp [startSession, verifySessionNotInProgress, isSessionInProgressAtLocation, h]
  · intro h
    refine ⟨{ st with sessionForLocationId :=
        fun l => if l = locationId then some sid else st.sessionForLocationId l }, ?_, ?_⟩
    · simp [setSessionForLocationId, isSessionInProgressAtLocation, h]
    · simp
  · intro h hfuel
    obtain ⟨f, rfl⟩ : ∃ f, fuel = f + 1 := ⟨fuel - 1, by omega⟩
    simp only [startSession, verifySessionNotInProgress, isSessionInProgressAtLocation, h,
      Option.isSome_none, Bool.false_eq_true, if_false, setSessionForLocationId]
    have hhead := chainActions_head env f locationId sid (Action.start sid)
      { st with sessionForLocationId :=
          fun l => if l = locationId then some sid else st.sessionForLocationId l }
      (by simp)
    simpa [Except.map, Action.kind] using hhead

/-- Claim C6 witness: starting at an occupied location fails the
assertion and creates no second entry; starting at a fresh location
registers the session and the chain's first event is a Start action. -/
theorem claim_C6_witness :
    startSession happyEnv 10 1 0 runningState = (Except.error JsErr.assertionFailed, runningState)
    ∧ (startSession happyEnv 10 1 0 runningState).2.sessionForLocationId 0 = some 0
    ∧ ((startSession happyEnv 10 0 0 freshState).1.map (fun p => p.2.head?))
        = Except.ok (some (Event.started AKind.startK)) := by
  have h := (claim_C6_start_session_precondition happyEnv 10 1 0 runningState).1 rfl
  have h2 := (claim_C6_start_session_precondition happyEnv 10 0 0 freshState).2.2 rfl (by decide)
  exact ⟨h, by rw [h]; rfl, h2⟩

/-- The driver's error-ending recovery run, from an arbitrary state: it
resolves (never rejects), and afterwards the location has neither a
session nor a current action; when a session was still registered, the
recovery's first trace event is the start of the error-ending action. -/
lemma chainActions_eqfe_recovery (env : Env) (f locationId sid : Nat) (st : GState)
    (hloc : (st.sessionHeap sid).locationId = locationId)
    (hact : st.sessionForLocationId locationId = none →
      st.currentActionForLocationId locationId = none) :
    (∃ v, (chainActions env (f + 2) locationId (some (Action.endQuizForError sid)) st).1
        = ChainRes.resolved v)
    ∧ (chainActions env (f + 2) locationId
        (some (Action.endQuizForError sid)) st).2.1.sessionForLocationId locationId = none
    ∧ (chainActions env (f + 2) locationId
        (some (Action.endQuizForError sid)) st).2.1.currentActionForLocationId locationId = none
    ∧ ((st.sessionForLocationId locationId).isSome = true →
        (chainActions env (f + 2) locationId (some (Action.endQuizForError sid)) st).2.2.head?
          = some (Event.started AKind.endQuizForErrorK)) := by
  cases hs : st.sessionForLocationId locationId with
  | none =>
    have hbase : chainActions env (f + 2) locationId (some (Action.endQuizForError sid)) st
        = (ChainRes.resolved none, st, []) := by
      have h2 : f + 2 = Nat.succ (f + 1) := rfl
      rw [h2]
      simp only [chainActions, hs]
    rw [hbase]
    exact ⟨⟨none, rfl⟩, hs, hact hs, by simp⟩
  | some sid2 =>
    rw [chainActions_eqfe_run env f locationId sid sid2 st hs hloc]
    refine ⟨⟨some END_STATUS_ERROR, rfl⟩, ?_, ?_, by simp⟩
    · rw [closeSession_sessionForLocationId, setCurrentAction_sessionHeap, hloc]
      simp
    · rw [closeSession_currentActionForLocationId, setCurrentAction_sessionHeap, hloc]
      simp

/-- Claim C2 (amended): for every action executed by the driver whose
execution promise rejects, the driver logs the fault and recurses into an
error-ending action (visible in the trace whenever the faulting action
left the session registered), and the chain resolves with
`END_STATUS_ERROR`; even though that recovery itself fails (the
error-ending action's own fault), the session is force-closed and failure
is still reported.  For an action that faults synchronously, the driver
does not recurse into an error-ending action: it ends the quiz directly
through `endQuiz` (notify error, force-close) and still resolves with
`END_STATUS_ERROR`.  In both cases no fault leaves the location's chain
unterminated: afterwards the location has neither a session nor a
current action. -/
theorem claim_C2_driver_fault_handling (env : Env) (fuel locationId sid : Nat) (a : Action)
    (st : GState) (e : JsErr)
    (hfuel : 3 ≤ fuel)
    (hsess : st.sessionForLocationId locationId = some sid)
    (hloc : (st.sessionHeap sid).locationId = locationId) :
    ((doAction env a (setCurrentAction locationId (ActiveAction.fresh a) st)).1 = DoRes.rejected e →
      (chainActions env fuel locationId (some a) st).1 = ChainRes.resolved (some END_STATUS_ERROR)
      ∧ (chainActions env fuel locationId (some a) st).2.1.sessionForLocationId locationId = none
      ∧ (chainActions env fuel locationId (some a) st).2.1.currentActionForLocationId locationId = none
      ∧ (chainActions env fuel locationId (some a) st).2.2.take 2
          = [Event.started a.kind, Event.faulted]
      ∧ (((doAction env a (setCurrentAction locationId (ActiveAction.fresh a) st)).2.sessionForLocationId
            locationId).isSome = true →
          (chainActions env fuel locationId (some a) st).2.2[2]?
            = some (Event.started AKind.endQuizForErrorK)))
    ∧ ((doAction env a (setCurrentAction locationId (ActiveAction.fresh a) st)).1 = DoRes.threw e →
      (chainActions env fuel locationId (some a) st).1 = ChainRes.resolved (some END_STATUS_ERROR)
      ∧ (chainActions env fuel locationId (some a) st).2.1.sessionForLocationId locationId = none
      ∧ (chainActions env fuel locationId (some a) st).2.1.currentActionForLocationId locationId = none
      ∧ (chainActions env fuel locationId (some a) st).2.2
          = [Event.started a.kind, Event.faulted]) := by
  obtain ⟨f, rfl⟩ : ∃ f, fuel = f + 3 := ⟨fuel - 3, by omega⟩
  have h3 : f + 3 = Nat.succ (f + 2) := rfl
  rcases hdo : doAction env a (setCurrentAction locationId (ActiveAction.fresh a) st) with ⟨res, st2⟩
  have hloc2 : (st2.sessionHeap sid).locationId = locationId := by
    have := doAction_locId env a (setCurrentAction locationId (ActiveAction.fresh a) st) sid
    rw [hdo] at this
    rw [this, setCurrentAction_sessionHeap, hloc]
  have hsess1 : (setCurrentAction locationId (ActiveAction.fresh a) st).sessionForLocationId locationId
      = some sid := by rw [setCurrentAction_sessionForLocationId, hsess]
  have hact2 : st2.sessionForLocationId locationId = none →
      st2.currentActionForLocationId locationId = none := by
    intro hnone
    have := doAction_close env a (setCurrentAction locationId (ActiveAction.fresh a) st)
      locationId sid hsess1 (by rw [hdo]; exact hnone)
    rw [hdo] at this
    exact this
  constructor
  · intro hres
    have hres' : res = DoRes.rejected e := hres
    subst hres'
    have hrec := chainActions_eqfe_recovery env f locationId sid st2 hloc2 hact2
    have hchain : chainActions env (f + 3) locationId (some a) st
        = (match (chainActions env (f + 2) locationId (some (Action.endQuizForError sid)) st2).1 with
           | ChainRes.outOfFuel => ChainRes.outOfFuel
           | ChainRes.resolved _ => ChainRes.resolved (some END_STATUS_ERROR),
           (chainActions env (f + 2) locationId (some (Action.endQuizForError sid)) st2).2.1,
           Event.started a.kind :: Event.faulted ::
             (chainActions env (f + 2) locationId (some (Action.endQuizForError sid)) st2).2.2) := by
      rw [h3]
      simp only [chainActions, hsess, hdo]
    obtain ⟨⟨v, hv⟩, hns, hna, hhead⟩ := hrec
    rw [hchain]
    refine ⟨by rw [hv], hns, hna, by simp, ?_⟩
    intro hsome
    have := hhead hsome
    simp only [List.getElem?_cons_succ, List.getElem?_cons_zero]
    rwa [← List.head?_eq_getElem?]
  · intro hres
    have hres' : res = DoRes.threw e := hres
    subst hres'
    have hchain : chainActions env (f + 3) locationId (some a) st
        = (ChainRes.resolved (some END_STATUS_ERROR), (endQuiz env sid st2).1,
           [Event.started a.kind, Event.faulted]) := by
      rw [h3]
      simp only [chainActions, hsess, hdo]
    rw [hchain]
    refine ⟨rfl, ?_, ?_, rfl⟩
    · rw [← hloc2]
      exact endQuiz_closed_session env sid st2
    · rw [← hloc2]
      exact endQuiz_closed_action env sid st2

/-- Environment in which `showWrongAnswer` throws synchronously when
called. -/
def syncThrowEnv : Env := { happyEnv with showWrongAnswerCall := CallOutcome.throwsSync }

/-- Claim C2 counterexample: the claim as stated says that on a
synchronous fault, too, the driver recurses into an error-ending action.
Running the driver on a ShowWrongAnswer action whose notification call
throws synchronously: the chain does resolve with `END_STATUS_ERROR`, but
the complete trace is just the faulted action — the driver never starts an
error-ending action (it ends the quiz directly through `endQuiz`,
lines 464-470). -/
theorem claim_C2_counterexample :
    (chainActions syncThrowEnv 5 0 (some (Action.showWrongAnswer 0 false)) runningState).1
        = ChainRes.resolved (some END_STATUS_ERROR)
    ∧ (chainActions syncThrowEnv 5 0 (some (Action.showWrongAnswer 0 false)) runningState).2.2
        = [Event.started AKind.showWrongAnswerK, Event.faulted]
    ∧ (chainActions syncThrowEnv 5 0 (some (Action.showWrongAnswer 0 false)) runningState).2.2.countP
        (fun e => decide (e = Event.started AKind.endQuizForErrorK)) = 0 := by
  refine ⟨by rfl, by rfl, by rfl⟩

/-- Claim C2 witness: both fault shapes on concrete runs — a rejected
execution (the error-ending action itself, whose `do` always rejects) and
a synchronous throw (ShowWrongAnswer with a synchronously-throwing
notifier). -/
theorem claim_C2_witness :
    (chainActions happyEnv 3 0 (some (Action.endQuizForError 0)) runningState).1
        = ChainRes.resolved (some END_STATUS_ERROR)
    ∧ (chainActions happyEnv 3 0 (some (Action.endQuizForError 0)) runningState).2.1.sessionForLocationId 0
        = none
    ∧ (chainActions happyEnv 3 0 (some (Action.endQuizForError 0)) runningState).2.1.currentActionForLocationId 0
        = none
    ∧ (chainActions syncThrowEnv 3 0 (some (Action.showWrongAnswer 0 false)) runningState).1
        = ChainRes.resolved (some END_STATUS_ERROR)
    ∧ (chainActions syncThrowEnv 3 0 (some (Action.showWrongAnswer 0 false)) runningState).2.2
        = [Event.started AKind.showWrongAnswerK, Event.faulted] := by
  have h1 := (claim_C2_driver_fault_handling happyEnv 3 0 0 (Action.endQuizForError 0)
    runningState JsErr.referenceError (by decide) rfl rfl).1 rfl
  have h2 := (claim_C2_driver_fault_handling syncThrowEnv 3 0 0 (Action.showWrongAnswer 0 false)
    runningState JsErr.collabError (by decide) rfl rfl).2 rfl
  exact ⟨h1.1, h1.2.1, h1.2.2.1, h2.1, h2.2.2.2⟩

/-! ## Timer-cleanup ordering (claim C8) -/

/-- A driver trace in which every completed `do` is immediately followed
by the timer cleanup. -/
def GoodTrace (tr : List Event) : Prop :=
  ∀ i, tr[i]? = some Event.completed → tr[i + 1]? = some Event.cleared

lemma goodTrace_nil : GoodTrace [] := by
  intro i h
  simp at h

lemma goodTrace_step3 (k : AKind) (tr : List Event) (h : GoodTrace tr) :
    GoodTrace (Event.started k :: Event.completed :: Event.cleared :: tr) := by
  intro i hi
  match i with
  | 0 => simp at hi
  | 1 => simp
  | 2 => simp at hi
  | n + 3 =>
    have := h n (by simpa using hi)
    simpa using this

lemma goodTrace_step2 (k : AKind) (tr : List Event) (h : GoodTrace tr) :
    GoodTrace (Event.started k :: Event.faulted :: tr) := by
  intro i hi
  match i with
  | 0 => simp at hi
  | 1 => simp at hi
  | n + 2 =>
    have := h n (by simpa using hi)
    simpa using this

/-- Every trace the driver produces is a good trace. -/
lemma chainActions_goodTrace (env : Env) :
    ∀ (fuel locationId : Nat) (actionOpt : Option Action) (st : GState),
      GoodTrace (chainActions env fuel locationId actionOpt st).2.2
  | 0, _, _, _ => goodTrace_nil
  | Nat.succ f, locationId, actionOpt, st => by
    cases actionOpt with
    | none => exact goodTrace_nil
    | some a =>
      cases hs : st.sessionForLocationId locationId with
      | none =>
        simp only [chainActions, hs]
        exact goodTrace_nil
      | some sid =>
        rcases hdo : doAction env a (setCurrentAction locationId (ActiveAction.fresh a) st)
          with ⟨res, st2⟩
        cases res with
        | next r =>
          have htr : (chainActions env (Nat.succ f) locationId (some a) st).2.2
              = Event.started a.kind :: Event.completed :: Event.cleared ::
                (chainActions env f locationId r (clearTimersOf sid st2)).2.2 := by
            simp only [chainActions, hs, hdo]
          rw [htr]
          exact goodTrace_step3 _ _ (chainActions_goodTrace env f locationId r (clearTimersOf sid st2))
        | rejected e =>
          have htr : (chainActions env (Nat.succ f) locationId (some a) st).2.2
              = Event.started a.kind :: Event.faulted ::
                (chainActions env f locationId (some (Action.endQuizForError sid)) st2).2.2 := by
            simp only [chainActions, hs, hdo]
          rw [htr]
          exact goodTrace_step2 _ _
            (chainActions_goodTrace env f locationId (some (Action.endQuizForError sid)) st2)
        | threw e =>
          have htr : (chainActions env (Nat.succ f) locationId (some a) st).2.2
              = [Event.started a.kind, Event.faulted] := by
            simp only [chainActions, hs, hdo]
          rw [htr]
          exact goodTrace_step2 a.kind [] goodTrace_nil

/-- Claim C8: within one location's chain, after each completed action the
driver clears all of the session's pending timers before executing the
next returned action: in every driver trace, a completion event is
immediately followed by the cleanup event; `clearTimers` empties the
session's timer set; and any action started later in the trace than a
completion is preceded by the completion's cleanup event. -/
theorem claim_C8_cleanup_before_next_action (env : Env) (fuel locationId : Nat)
    (actionOpt : Option Action) (st : GState) :
    GoodTrace (chainActions env fuel locationId actionOpt st).2.2
    ∧ (∀ sid st0, ((clearTimersOf sid st0).sessionHeap sid).timers = 0)
    ∧ (∀ i j k, (chainActions env fuel locationId actionOpt st).2.2[i]? = some Event.completed →
        (chainActions env fuel locationId actionOpt st).2.2[j]? = some (Event.started k) →
        i < j →
        i + 1 < j ∧ (chainActions env fuel locationId actionOpt st).2.2[i + 1]?
          = some Event.cleared) := by
  refine ⟨chainActions_goodTrace env fuel locationId actionOpt st, ?_, ?_⟩
  · intro sid st0
    simp [clearTimersOf, modifySession]
  · intro i j k hi hj hij
    have hcl := chainActions_goodTrace env fuel locationId actionOpt st i hi
    refine ⟨?_, hcl⟩
    rcases Nat.lt_or_ge (i + 1) j with h | h
    · exact h
    · have hj1 : j = i + 1 := by omega
      rw [hj1, hcl] at hj
      simp at hj

/-- Claim C8 witness: in the concrete happy-path run, the completion of
the Start action (index 1) is followed by its timer cleanup (index 2)
before the Wait action starts (index 3). -/
theorem claim_C8_witness :
    1 + 1 < 3
    ∧ (chainActions happyEnv 10 0 (some (Action.start 0)) runningState).2.2[1 + 1]?
        = some Event.cleared :=
  (claim_C8_cleanup_before_next_action happyEnv 10 0 (some (Action.start 0)) runningState).2.2
    1 3 AKind.waitK (by rfl) (by rfl) (by omega)

end Shiritori
